import Mathlib

/-!
# Verification of the plan → draft → evaluate → commit workflow

Shallow embedding of `src/main.py` (`Ladams537/01_Agent`): the pydantic data
model, the pure evaluator `run_evaluator`, the committer `run_committer`
(modelled as the HTTP request it would issue plus the message it returns,
with the HTTP response supplied as an oracle), and the orchestration loop
`run_workflow` (modelled as a step function driven by oracles for the
external Planner, Drafter and Trello API, iterated with explicit fuel).
-/

namespace Workflow

/-- The `tag` field of `TrelloCard`: `Literal["Bug", "Feature", "Docs"]`. -/
inductive Tag
  | bug
  | feature
  | docs
deriving DecidableEq

/-- Rendering of a `Tag` as the Python string it stands for. -/
def tagStr : Tag → String
  | .bug => "Bug"
  | .feature => "Feature"
  | .docs => "Docs"

/-- `class TrelloCard(BaseModel)` from `main.py`. -/
structure TrelloCard where
  id : Option String
  title : String
  description : String
  tag : Tag
deriving DecidableEq

/-- `class Plan(BaseModel)` from `main.py`. -/
structure Plan where
  steps : List String
  reasoning : String
deriving DecidableEq

/-- `class ExecutionResult(BaseModel)` from `main.py`. -/
structure ExecutionResult where
  output_data : Option TrelloCard
  success : Bool
  error_message : Option String
deriving DecidableEq

/-- The `decision` field of `Evaluation`: `Literal["approve", "reject"]`. -/
inductive Decision
  | approve
  | reject
deriving DecidableEq

/-- `class Evaluation(BaseModel)` from `main.py`. -/
structure Evaluation where
  decision : Decision
  critique : Option String
deriving DecidableEq

/-- The `current_step` field of `AgentState`. -/
inductive Step
  | planning
  | executing
  | evaluating
  | committing
  | done
  | failed
deriving DecidableEq

/-- `class AgentState(BaseModel)` from `main.py`. -/
structure AgentState where
  input_query : String
  current_step : Step
  scratchpad : List String
  draft_card : Option TrelloCard
  retry_count : Nat
  max_retries : Nat
  final_result : Option String
deriving DecidableEq

/-- The pydantic defaults of `AgentState`, as built by
`AgentState(input_query=user_query)`, with `max_retries` kept as a
parameter (the source default is 3). -/
def initAgent (q : String) (maxR : Nat) : AgentState :=
  { input_query := q
    current_step := .planning
    scratchpad := []
    draft_card := none
    retry_count := 0
    max_retries := maxR
    final_result := none }

/-- Python truthiness of an `Optional[str]`: `None` and the empty string
are falsy, every other string is truthy.  `run_evaluator` and
`run_committer` both gate on `if draft.id:` / `if card.id:`. -/
def optStrTruthy : Option String → Bool
  | none => false
  | some s => !s.isEmpty

/-- Translation of `run_evaluator` (`main.py` lines 147-163).  The outer
test `if draft.id:` is a Python truthiness test, so it is skipped both when
`id` is `None` and when `id` is the empty string. -/
def run_evaluator (state : AgentState) : Evaluation :=
  match state.draft_card with
  | none => { decision := .reject, critique := some "No card was generated." }
  | some draft =>
    if optStrTruthy draft.id then
      if (draft.id.getD "").length < 10 || (draft.id.getD "").contains ' ' then
        { decision := .reject
          critique := some ("The ID '" ++ draft.id.getD "" ++
            "' is invalid. It looks like a name or title. The ID must be the alphanumeric hash found by the Search tool.") }
      else
        { decision := .approve, critique := none }
    else
      { decision := .approve, critique := none }

/-- `run_evaluator` only looks at `draft_card`; this wrapper evaluates a
bare optional card using otherwise irrelevant state fields. -/
def evalCard (d : Option TrelloCard) : Evaluation :=
  run_evaluator
    { input_query := ""
      current_step := .evaluating
      scratchpad := []
      draft_card := d
      retry_count := 0
      max_retries := 3
      final_result := none }

/-- Credentials and targets that `run_committer` reads from the
environment (`TRELLO_API_KEY`, `TRELLO_TOKEN`, `TRELLO_LIST_ID`);
`os.getenv` may return `None`, hence the options. -/
structure TrelloConfig where
  key : Option String
  token : Option String
  listId : Option String

/-- The HTTP verb of the single Trello call `run_committer` issues. -/
inductive HttpMethod
  | put
  | post
deriving DecidableEq

/-- The request `run_committer` sends: verb, url and query parameters in
the order the Python dict literal lists them. -/
structure CommitRequest where
  method : HttpMethod
  url : String
  params : List (String × Option String)
deriving DecidableEq

/-- The Trello API response, as far as `run_committer` inspects it:
`status_code`, `response.json().get('shortUrl')` and `response.text`. -/
structure HttpResponse where
  status : Nat
  shortUrl : Option String
  text : String

/-- Python f-string rendering of an optional string: None prints as "None". -/
def pyShow : Option String → String
  | none => "None"
  | some s => s

/-- Translation of `run_committer` (`main.py` lines 166-208), returning the
request it issues (when any) together with the message it returns.  The
branch `if card.id:` is a truthiness test, so an empty-string `id` takes
the CREATE branch; the success test is exactly `status_code == 200`. -/
def run_committer (cfg : TrelloConfig) (state : AgentState) (resp : HttpResponse) :
    Option CommitRequest × String :=
  match state.draft_card with
  | none => (none, "Error: No card to commit")
  | some card =>
    let base : List (String × Option String) := [("key", cfg.key), ("token", cfg.token)]
    let cardName := "[" ++ tagStr card.tag ++ "] " ++ card.title
    let (req, action_type) :=
      if optStrTruthy card.id then
        ({ method := .put
           url := "https://api.trello.com/1/cards/" ++ card.id.getD ""
           params := base ++ [("name", some cardName), ("desc", some card.description)] },
         "Updated")
      else
        ({ method := .post
           url := "https://api.trello.com/1/cards"
           params := base ++ [("idList", cfg.listId), ("name", some cardName),
                              ("desc", some card.description), ("pos", some "top")] },
         "Created")
    if resp.status = 200 then
      (some req, "SUCCESS: " ++ action_type ++ " card " ++ pyShow resp.shortUrl)
    else
      (some req, "API ERROR: " ++ resp.text)

/-- The `executing` branch of the `run_workflow` loop (`main.py` lines
222-235), applied to the `ExecutionResult` the executor returned. -/
def executingStep (s : AgentState) (exec_result : ExecutionResult) : AgentState :=
  if exec_result.success then
    { s with draft_card := exec_result.output_data, current_step := .evaluating }
  else
    let s' := { s with retry_count := s.retry_count + 1 }
    if s'.retry_count > s'.max_retries then
      { s' with current_step := .failed }
    else
      s'

/-- The `evaluating` branch of the `run_workflow` loop (`main.py` lines
237-256), applied to the `Evaluation` the evaluator returned. -/
def evaluatingStep (s : AgentState) (evaluation : Evaluation) : AgentState :=
  match evaluation.decision with
  | .approve => { s with current_step := .committing }
  | .reject =>
    let s' := { s with retry_count := s.retry_count + 1 }
    let s'' :=
      match evaluation.critique with
      | none => s'
      | some c => { s' with scratchpad := s'.scratchpad ++ [c] }
    if s''.retry_count > s''.max_retries then
      { s'' with current_step := .failed, final_result := some "Human Handoff Required" }
    else
      { s'' with current_step := .executing }

/-- Oracles for the external collaborators: the Plan the planner returns,
the `ExecutionResult` of the n-th executor call, and the Trello API
response to the (single) commit call. -/
structure Collaborators where
  plan : Plan
  drafts : Nat → ExecutionResult
  commit : HttpResponse

/-- Observable events of one run, recorded in order. -/
inductive Event
  | planned : Plan → Event
  | drafted : ExecutionResult → Event
  | evaluated : Evaluation → Event
  | committed : Option TrelloCard → String → Event

/-- Whole-run bookkeeping: the `AgentState`, the local `current_plan`
variable of `run_workflow`, how many executor calls were made, and the
event trace. -/
structure RunState where
  agent : AgentState
  current_plan : Option Plan
  draftIdx : Nat
  events : List Event

/-- One iteration of the `while` loop of `run_workflow` (`main.py` lines
217-261).  The `raise ValueError("No Plan!")` on line 224 becomes the
`Except.error` case. -/
def stepRun (co : Collaborators) (cfg : TrelloConfig) (rs : RunState) :
    Except String RunState :=
  match rs.agent.current_step with
  | .planning =>
      .ok { rs with
              agent := { rs.agent with current_step := .executing }
              current_plan := some co.plan
              events := rs.events ++ [.planned co.plan] }
  | .executing =>
      match rs.current_plan with
      | none => .error "No Plan!"
      | some _ =>
          let r := co.drafts rs.draftIdx
          .ok { rs with
                  agent := executingStep rs.agent r
                  draftIdx := rs.draftIdx + 1
                  events := rs.events ++ [.drafted r] }
  | .evaluating =>
      let evaluation := run_evaluator rs.agent
      .ok { rs with
              agent := evaluatingStep rs.agent evaluation
              events := rs.events ++ [.evaluated evaluation] }
  | .committing =>
      let result_msg := (run_committer cfg rs.agent co.commit).snd
      .ok { rs with
              agent := { rs.agent with
                           final_result := some result_msg
                           current_step := .done }
              events := rs.events ++ [.committed rs.agent.draft_card result_msg] }
  | .done => .ok rs
  | .failed => .ok rs

/-- A terminal state of the `while` guard on line 217. -/
def Terminal (rs : RunState) : Prop :=
  rs.agent.current_step = .done ∨ rs.agent.current_step = .failed

/-- The `while` loop of `run_workflow`, iterated with explicit fuel; with
enough fuel the guard, not the fuel, ends the loop (proved below). -/
def runLoop (co : Collaborators) (cfg : TrelloConfig) : Nat → RunState → Except String RunState
  | 0, rs => .ok rs
  | Nat.succ n, rs =>
    if rs.agent.current_step = Step.done ∨ rs.agent.current_step = Step.failed then
      .ok rs
    else
      match stepRun co cfg rs with
      | .error e => .error e
      | .ok rs' => runLoop co cfg n rs'

/-- `run_workflow(user_query)` (`main.py` lines 211-263): start from the
fresh `AgentState` (the source fixes `max_retries = 3`; it is a parameter
here) and iterate. -/
def run_workflow (co : Collaborators) (cfg : TrelloConfig) (q : String)
    (maxR fuel : Nat) : Except String RunState :=
  runLoop co cfg fuel
    { agent := initAgent q maxR
      current_plan := none
      draftIdx := 0
      events := [] }

/-- Is the event a drafting attempt? -/
def isDraftedEv : Event → Bool
  | .drafted _ => true
  | _ => false

/-- Is the event a planner call? -/
def isPlannedEv : Event → Bool
  | .planned _ => true
  | _ => false

/-- Is the event an evaluator call? -/
def isEvaluatedEv : Event → Bool
  | .evaluated _ => true
  | _ => false

/-- Is the event a committer call? -/
def isCommittedEv : Event → Bool
  | .committed _ _ => true
  | _ => false

/-- Number of drafting attempts recorded in a trace. -/
def countDrafted (evs : List Event) : Nat := (evs.filter isDraftedEv).length

/-- Number of planner calls recorded in a trace. -/
def countPlanned (evs : List Event) : Nat := (evs.filter isPlannedEv).length

/-- Number of evaluator calls recorded in a trace. -/
def countEvaluated (evs : List Event) : Nat := (evs.filter isEvaluatedEv).length

/-- Number of committer calls recorded in a trace. -/
def countCommitted (evs : List Event) : Nat := (evs.filter isCommittedEv).length

/-- The critique of a rejection event, when it carried one. -/
def rejCritique : Event → Option String
  | .evaluated e =>
      match e.decision, e.critique with
      | .reject, some c => some c
      | _, _ => none
  | _ => none

/-- The critiques of all rejections in a trace, in order. -/
def rejCritiques (evs : List Event) : List String := evs.filterMap rejCritique

/-- Does the event record a rejection carrying a non-empty critique? -/
def isNonemptyRejEv : Event → Bool
  | .evaluated e =>
      match e.decision, e.critique with
      | .reject, some c => !c.isEmpty
      | _, _ => false
  | _ => false

/-- Number of rejections in a trace that carried a non-empty critique. -/
def countNonemptyRej (evs : List Event) : Nat := (evs.filter isNonemptyRejEv).length

/-- How one event updates the flag "the most recent evaluation approved". -/
def gateUpd (b : Bool) : Event → Bool
  | .evaluated e => decide (e.decision = .approve)
  | _ => b

/-- Fold of `gateUpd` over a trace: whether the most recent evaluation in
it (if any; otherwise the initial flag) approved. -/
def gateAfter (b : Bool) : List Event → Bool
  | [] => b
  | e :: rest => gateAfter (gateUpd b e) rest

/-- Is this event admissible when the most-recent-approval flag is `b`?  A
commit event requires the flag and a present card; anything else always is. -/
def commitOk (b : Bool) : Event → Bool
  | .committed c _ => b && c.isSome
  | _ => true

/-- Every commit in the trace happens while the most recent evaluation was
an approval, and on a present card. -/
def commitsGated (b : Bool) : List Event → Bool
  | [] => true
  | e :: rest => commitOk b e && commitsGated (gateUpd b e) rest

/-- The state invariant tying `retry_count` to the retry budget: the
count stays within the budget except in `failed`, which is entered with
the count one past the budget. -/
def AgentInv (s : AgentState) : Prop :=
  (s.current_step = .failed → s.retry_count = s.max_retries + 1) ∧
  (s.current_step ≠ .failed → s.retry_count ≤ s.max_retries)

/-- The workflow invariant: the agent invariant, plus a plan existing as
soon as planning is over. -/
def WfInv (rs : RunState) : Prop :=
  AgentInv rs.agent ∧ (rs.agent.current_step ≠ .planning → rs.current_plan.isSome)

/-- Weight of each phase in the termination measure. -/
def stepWeight : Step → Nat
  | .planning => 4
  | .executing => 3
  | .evaluating => 2
  | .committing => 1
  | .done => 0
  | .failed => 0

/-- Termination measure on agent states. -/
def agentMeasure (s : AgentState) : Nat :=
  3 * (s.max_retries - s.retry_count) + stepWeight s.current_step

/-- Termination measure: every non-terminal step of the loop strictly
decreases it. -/
def measureOf (rs : RunState) : Nat := agentMeasure rs.agent

/-- Trace invariant of the loop: counters of the recorded events agree
with the state, the scratchpad is exactly the ordered list of rejection
critiques, and commits only happen right after an approval on a present
card. -/
def TraceInv (rs : RunState) : Prop :=
  countPlanned rs.events = (if rs.agent.current_step = .planning then 0 else 1) ∧
  countDrafted rs.events = rs.draftIdx ∧
  countEvaluated rs.events +
    (if rs.agent.current_step = .evaluating then 1 else 0) ≤ rs.draftIdx ∧
  countCommitted rs.events = (if rs.agent.current_step = .done then 1 else 0) ∧
  rs.draftIdx ≤ rs.agent.retry_count +
    (if rs.agent.current_step = .evaluating ∨ rs.agent.current_step = .committing
        ∨ rs.agent.current_step = .done then 1 else 0) ∧
  rs.agent.scratchpad = rejCritiques rs.events ∧
  rs.agent.scratchpad.length = countNonemptyRej rs.events ∧
  commitsGated false rs.events = true ∧
  (rs.agent.current_step = .committing →
    gateAfter false rs.events = true ∧ rs.agent.draft_card.isSome = true)

/-- Invariant used for the human-handoff property: with a drafter that
always succeeds and drafts that the evaluator always rejects, the run can
never reach `committing` or `done`, and `failed` always carries the
handoff sentinel. -/
def RejectInv (rs : RunState) : Prop :=
  rs.agent.current_step ≠ .committing ∧ rs.agent.current_step ≠ .done ∧
  (rs.agent.current_step = .failed →
    rs.agent.final_result = some "Human Handoff Required") ∧
  (rs.agent.current_step = .evaluating → (run_evaluator rs.agent).decision = .reject)

/-- A fixed configuration used for concrete instantiations. -/
def cfg0 : TrelloConfig := { key := some "k", token := some "t", listId := some "l" }

/-- Collaborators whose drafter always crashes; used for concrete
instantiations. -/
def co0 : Collaborators :=
  { plan := { steps := [], reasoning := "" }
    drafts := fun _ => { output_data := none, success := false, error_message := some "err" }
    commit := { status := 200, shortUrl := some "u", text := "" } }

/-- A card whose `id` is present but is the empty string. -/
def cexCard : TrelloCard := { id := some "", title := "t", description := "d", tag := .bug }

/-- An evaluating state holding `cexCard`. -/
def cexState : AgentState :=
  { input_query := ""
    current_step := .evaluating
    scratchpad := []
    draft_card := some cexCard
    retry_count := 0
    max_retries := 3
    final_result := none }

/-- A state whose draft is absent. -/
def sNoDraft : AgentState :=
  { input_query := ""
    current_step := .evaluating
    scratchpad := []
    draft_card := none
    retry_count := 0
    max_retries := 3
    final_result := none }

/-- A state whose draft has a malformed id (contains a space). -/
def sBadId : AgentState :=
  { input_query := ""
    current_step := .evaluating
    scratchpad := []
    draft_card := some { id := some "Shelley K", title := "t", description := "d", tag := .bug }
    retry_count := 0
    max_retries := 3
    final_result := none }

/-- A state whose draft has a well-formed 10-character id. -/
def sGoodId : AgentState :=
  { input_query := ""
    current_step := .evaluating
    scratchpad := []
    draft_card := some { id := some "abc1234567", title := "t", description := "d", tag := .bug }
    retry_count := 0
    max_retries := 3
    final_result := none }

/-- A state whose draft has no id, an empty title and a short description. -/
def sShort : AgentState :=
  { input_query := ""
    current_step := .evaluating
    scratchpad := []
    draft_card := some { id := none, title := "", description := "x", tag := .docs }
    retry_count := 0
    max_retries := 3
    final_result := none }

/-- An evaluating state with a non-empty scratchpad and zero retries. -/
def sEval : AgentState :=
  { input_query := ""
    current_step := .evaluating
    scratchpad := ["old critique"]
    draft_card := some cexCard
    retry_count := 0
    max_retries := 3
    final_result := none }

/-- A 200 response carrying a short url and a body. -/
def resp0 : HttpResponse := { status := 200, shortUrl := some "u", text := "body" }

/-- The CREATE request built from `cfg0` and `cexCard`. -/
def cexCreateReq : CommitRequest :=
  { method := .post
    url := "https://api.trello.com/1/cards"
    params := [("key", some "k"), ("token", some "t"), ("idList", some "l"),
               ("name", some "[Bug] t"), ("desc", some "d"), ("pos", some "top")] }

/-- A card carrying a well-formed 10-character id. -/
def updCard : TrelloCard :=
  { id := some "abc1234567", title := "T", description := "D", tag := .feature }

/-- A card with no id. -/
def creCard : TrelloCard := { id := none, title := "T", description := "D", tag := .docs }

/-- A committing state holding `updCard`. -/
def sUpd : AgentState :=
  { input_query := ""
    current_step := .committing
    scratchpad := []
    draft_card := some updCard
    retry_count := 0
    max_retries := 3
    final_result := none }

/-- A committing state holding `creCard`. -/
def sCre : AgentState :=
  { input_query := ""
    current_step := .committing
    scratchpad := []
    draft_card := some creCard
    retry_count := 0
    max_retries := 3
    final_result := none }

/-- Modelled from the spec: an HTTP success status is any 2xx code
(the spec's committer contract says "on 2xx, success message"). -/
def isSuccessStatus (n : Nat) : Bool := decide (200 ≤ n) && decide (n < 300)

/-- A 201 response: a success status that is not 200. -/
def resp201 : HttpResponse := { status := 201, shortUrl := some "u", text := "body" }

/-- An executing state with the default budget. -/
def sExec : AgentState :=
  { input_query := "q"
    current_step := .executing
    scratchpad := []
    draft_card := none
    retry_count := 0
    max_retries := 3
    final_result := none }

/-- Collaborators whose drafter always returns a card with a malformed id
(a name containing a space), so the evaluator always rejects. -/
def coRej : Collaborators :=
  { plan := { steps := ["s"], reasoning := "r" }
    drafts := fun _ =>
      { output_data := some { id := some "Shelley K", title := "t", description := "d", tag := .bug }
        success := true
        error_message := none }
    commit := { status := 200, shortUrl := some "u", text := "" } }

/-- The initial run state for query `"q"` and budget 3. -/
def rsInit0 : RunState :=
  { agent := initAgent "q" 3, current_plan := none, draftIdx := 0, events := [] }

/-- The run state after the planning step of `co0`. -/
def rsAfter0 : RunState :=
  { agent := { initAgent "q" 3 with current_step := .executing }
    current_plan := some co0.plan
    draftIdx := 0
    events := [.planned co0.plan] }

theorem gateAfter_append (b : Bool) (l l' : List Event) :
    gateAfter b (l ++ l') = gateAfter (gateAfter b l) l' := by
  induction l generalizing b with
  | nil => rfl
  | cons e rest ih => simp [gateAfter, ih]

theorem commitsGated_append (b : Bool) (l l' : List Event) :
    commitsGated b (l ++ l') = (commitsGated b l && commitsGated (gateAfter b l) l') := by
  induction l generalizing b with
  | nil => simp [commitsGated, gateAfter]
  | cons e rest ih =>
      simp [commitsGated, gateAfter, ih, Bool.and_assoc]

theorem executingStep_spec (s : AgentState) (r : ExecutionResult)
    (hs : s.current_step = .executing) (hinv : AgentInv s) :
    AgentInv (executingStep s r) ∧
    agentMeasure (executingStep s r) < agentMeasure s ∧
    (executingStep s r).max_retries = s.max_retries ∧
    (executingStep s r).current_step ≠ .planning := by
  obtain ⟨h1, h2⟩ := hinv
  have hrc : s.retry_count ≤ s.max_retries := h2 (by simp [hs])
  cases hr : r.success with
  | true =>
      simp [executingStep, hr, AgentInv, agentMeasure, stepWeight, hs]
      all_goals omega
  | false =>
      by_cases hgt : s.retry_count + 1 > s.max_retries
      · simp [executingStep, hr, hgt, hs, AgentInv, agentMeasure, stepWeight, hs]
        all_goals omega
      · simp [executingStep, hr, hgt, hs, AgentInv, agentMeasure, stepWeight, hs]
        all_goals omega

theorem evaluatingStep_spec (s : AgentState) (e : Evaluation)
    (hs : s.current_step = .evaluating) (hinv : AgentInv s) :
    AgentInv (evaluatingStep s e) ∧
    agentMeasure (evaluatingStep s e) < agentMeasure s ∧
    (evaluatingStep s e).max_retries = s.max_retries ∧
    (evaluatingStep s e).current_step ≠ .planning := by
  obtain ⟨h1, h2⟩ := hinv
  have hrc : s.retry_count ≤ s.max_retries := h2 (by simp [hs])
  cases hd : e.decision with
  | approve =>
      simp [evaluatingStep, hd, AgentInv, agentMeasure, stepWeight, hs]
      all_goals omega
  | reject =>
      cases hc : e.critique with
      | none =>
          by_cases hgt : s.retry_count + 1 > s.max_retries
          · simp [evaluatingStep, hd, hc, hgt, AgentInv, agentMeasure, stepWeight, hs]
            all_goals omega
          · simp [evaluatingStep, hd, hc, hgt, AgentInv, agentMeasure, stepWeight, hs]
            all_goals omega
      | some c =>
          by_cases hgt : s.retry_count + 1 > s.max_retries
          · simp [evaluatingStep, hd, hc, hgt, AgentInv, agentMeasure, stepWeight, hs]
            all_goals omega
          · simp [evaluatingStep, hd, hc, hgt, AgentInv, agentMeasure, stepWeight, hs]
            all_goals omega

theorem stepRun_progress (co : Collaborators) (cfg : TrelloConfig) (rs : RunState)
    (hinv : WfInv rs) (hnt : ¬ Terminal rs) :
    ∃ rs', stepRun co cfg rs = .ok rs' ∧ WfInv rs' ∧ measureOf rs' < measureOf rs ∧
      rs'.agent.max_retries = rs.agent.max_retries := by
  obtain ⟨hainv, hplan⟩ := hinv
  cases hs : rs.agent.current_step with
  | planning =>
      refine ⟨{ rs with
                  agent := { rs.agent with current_step := .executing }
                  current_plan := some co.plan
                  events := rs.events ++ [.planned co.plan] },
        by simp [stepRun, hs], ?_, ?_, rfl⟩
      · obtain ⟨h1, h2⟩ := hainv
        exact ⟨⟨by simp, fun _ => by simpa using h2 (by simp [hs])⟩, by simp⟩
      · simp [measureOf, agentMeasure, hs, stepWeight]
  | executing =>
      have hp : rs.current_plan.isSome := hplan (by simp [hs])
      obtain ⟨p, hp'⟩ := Option.isSome_iff_exists.mp hp
      obtain ⟨h1, h2, h3, h4⟩ := executingStep_spec rs.agent (co.drafts rs.draftIdx) hs hainv
      refine ⟨{ rs with
                  agent := executingStep rs.agent (co.drafts rs.draftIdx)
                  draftIdx := rs.draftIdx + 1
                  events := rs.events ++ [.drafted (co.drafts rs.draftIdx)] },
        by simp [stepRun, hs, hp'], ⟨h1, fun _ => by simpa using hp⟩, ?_, h3⟩
      simpa [measureOf] using h2
  | evaluating =>
      obtain ⟨h1, h2, h3, h4⟩ := evaluatingStep_spec rs.agent (run_evaluator rs.agent) hs hainv
      have hp : rs.current_plan.isSome := hplan (by simp [hs])
      exact ⟨{ rs with
                 agent := evaluatingStep rs.agent (run_evaluator rs.agent)
                 events := rs.events ++ [.evaluated (run_evaluator rs.agent)] },
        by simp [stepRun, hs], ⟨h1, fun _ => by simpa using hp⟩,
        by simpa [measureOf] using h2, h3⟩
  | committing =>
      obtain ⟨h1, h2⟩ := hainv
      have hrc : rs.agent.retry_count ≤ rs.agent.max_retries := h2 (by simp [hs])
      have hp : rs.current_plan.isSome := hplan (by simp [hs])
      refine ⟨{ rs with
                  agent := { rs.agent with
                               final_result := some (run_committer cfg rs.agent co.commit).snd
                               current_step := .done }
                  events := rs.events ++
                    [.committed rs.agent.draft_card (run_committer cfg rs.agent co.commit).snd] },
        by simp [stepRun, hs], ⟨⟨by simp, fun _ => by simpa using hrc⟩,
          fun _ => by simpa using hp⟩, ?_, rfl⟩
      simp [measureOf, agentMeasure, hs, stepWeight]
  | done => exact absurd (Or.inl hs) hnt
  | failed => exact absurd (Or.inr hs) hnt

theorem runLoop_preserves (co : Collaborators) (cfg : TrelloConfig) (P : RunState → Prop)
    (hP : ∀ rs rs', P rs → stepRun co cfg rs = .ok rs' → P rs') :
    ∀ fuel rs rs', P rs → runLoop co cfg fuel rs = .ok rs' → P rs' := by
  intro fuel
  induction fuel with
  | zero =>
      intro rs rs' hp h
      cases h
      exact hp
  | succ n ih =>
      intro rs rs' hp h
      rw [runLoop] at h
      split at h
      · cases h; exact hp
      · cases hstep : stepRun co cfg rs with
        | error e => rw [hstep] at h; cases h
        | ok rs₂ =>
            rw [hstep] at h
            exact ih rs₂ rs' (hP rs rs₂ hp hstep) h

theorem runLoop_total (co : Collaborators) (cfg : TrelloConfig) :
    ∀ fuel rs, WfInv rs → measureOf rs < fuel →
      ∃ rs', runLoop co cfg fuel rs = .ok rs' ∧ Terminal rs' ∧ WfInv rs' ∧
        rs'.agent.max_retries = rs.agent.max_retries := by
  intro fuel
  induction fuel with
  | zero => intro rs _ hm; omega
  | succ n ih =>
      intro rs hinv hm
      by_cases ht : rs.agent.current_step = Step.done ∨ rs.agent.current_step = Step.failed
      · exact ⟨rs, by rw [runLoop]; simp [ht], ht, hinv, rfl⟩
      · obtain ⟨rs₂, hstep, hinv₂, hlt, hmax⟩ := stepRun_progress co cfg rs hinv ht
        obtain ⟨rs', hrun, hterm, hinv', hmax'⟩ := ih rs₂ hinv₂ (by omega)
        refine ⟨rs', ?_, hterm, hinv', by rw [hmax', hmax]⟩
        rw [runLoop]
        simp only [ht, if_false]
        rw [hstep]
        exact hrun

theorem filterCount_append (p : Event → Bool) (l : List Event) (e : Event) :
    (List.filter p (l ++ [e])).length =
      (List.filter p l).length + (if p e then 1 else 0) := by
  rw [List.filter_append]
  cases hp : p e <;> simp [List.filter_cons, hp]

theorem countDrafted_append (l : List Event) (e : Event) :
    countDrafted (l ++ [e]) = countDrafted l + (if isDraftedEv e then 1 else 0) :=
  filterCount_append _ l e

theorem countPlanned_append (l : List Event) (e : Event) :
    countPlanned (l ++ [e]) = countPlanned l + (if isPlannedEv e then 1 else 0) :=
  filterCount_append _ l e

theorem countEvaluated_append (l : List Event) (e : Event) :
    countEvaluated (l ++ [e]) = countEvaluated l + (if isEvaluatedEv e then 1 else 0) :=
  filterCount_append _ l e

theorem countCommitted_append (l : List Event) (e : Event) :
    countCommitted (l ++ [e]) = countCommitted l + (if isCommittedEv e then 1 else 0) :=
  filterCount_append _ l e

theorem countNonemptyRej_append (l : List Event) (e : Event) :
    countNonemptyRej (l ++ [e]) = countNonemptyRej l + (if isNonemptyRejEv e then 1 else 0) :=
  filterCount_append _ l e

theorem rejCritiques_append (l : List Event) (e : Event) :
    rejCritiques (l ++ [e]) = rejCritiques l ++ (rejCritique e).toList := by
  rw [rejCritiques, List.filterMap_append]
  cases h : rejCritique e <;> simp [rejCritiques, List.filterMap_cons, h]

/-- The critique naming an invalid id is never the empty string. -/
theorem idCritique_nonempty (x y : String) : (("The ID '" ++ x) ++ y).isEmpty = false := by
  by_contra h
  rw [Bool.not_eq_false] at h
  have h2 := (String.isEmpty_iff _).mp h
  have h3 := congrArg String.data h2
  simp only [String.data_append] at h3
  rcases List.append_eq_nil.mp h3 with ⟨h4, -⟩
  rcases List.append_eq_nil.mp h4 with ⟨h5, -⟩
  exact absurd h5 (by decide)

/-- `run_evaluator` returns either a bare approval or a rejection carrying
a non-empty critique. -/
theorem run_evaluator_cases (s : AgentState) :
    run_evaluator s = { decision := .approve, critique := none } ∨
    ∃ c, run_evaluator s = { decision := .reject, critique := some c } ∧
      c.isEmpty = false := by
  unfold run_evaluator
  cases hd : s.draft_card with
  | none => exact Or.inr ⟨_, rfl, by decide⟩
  | some draft =>
      by_cases ht : optStrTruthy draft.id = true
      · by_cases hbad : ((draft.id.getD "").length < 10 ||
            (draft.id.getD "").contains ' ') = true
        · refine Or.inr ⟨"The ID '" ++ draft.id.getD "" ++
            "' is invalid. It looks like a name or title. The ID must be the alphanumeric hash found by the Search tool.",
            by simp [ht, hbad], idCritique_nonempty _ _⟩
        · simp only [ht, if_true]
          rw [if_neg (by simpa using hbad)]
          exact Or.inl rfl
      · simp [ht]

/-- An approval from `run_evaluator` can only happen on a present card. -/
theorem run_evaluator_approve_card (s : AgentState)
    (h : (run_evaluator s).decision = .approve) : s.draft_card.isSome := by
  cases hd : s.draft_card with
  | none =>
      rw [run_evaluator, hd] at h
      simp at h
  | some draft => rfl

theorem stepRun_trace (co : Collaborators) (cfg : TrelloConfig) (rs rs' : RunState)
    (h : TraceInv rs) (hstep : stepRun co cfg rs = .ok rs') : TraceInv rs' := by
  obtain ⟨t1, t2, t3, t4, t5, t6, t7, t8, t9⟩ := h
  cases hs : rs.agent.current_step with
  | planning =>
      simp only [stepRun, hs, Except.ok.injEq] at hstep
      subst hstep
      simp [hs] at t1 t3 t4 t5
      refine ⟨?_, ?_, ?_, ?_, ?_, ?_, ?_, ?_, ?_⟩
      · simp [countPlanned_append, isPlannedEv, t1]
      · simp [countDrafted_append, isDraftedEv, t2]
      · simpa [countEvaluated_append, isEvaluatedEv] using t3
      · simpa [countCommitted_append, isCommittedEv] using t4
      · simpa using t5
      · simp [rejCritiques_append, rejCritique, t6]
      · simpa [countNonemptyRej_append, isNonemptyRejEv] using t7
      · simp [commitsGated_append, commitsGated, commitOk, t8]
      · simp
  | executing =>
      cases hcp : rs.current_plan with
      | none => simp [stepRun, hs, hcp] at hstep
      | some p =>
          simp only [stepRun, hs, hcp, Except.ok.injEq] at hstep
          subst hstep
          simp [hs] at t1 t3 t4 t5
          cases hr : (co.drafts rs.draftIdx).success with
          | true =>
              refine ⟨?_, ?_, ?_, ?_, ?_, ?_, ?_, ?_, ?_⟩
              · simp [countPlanned_append, isPlannedEv, executingStep, hr, t1]
              · simp [countDrafted_append, isDraftedEv, executingStep, hr, t2]
              · simp [countEvaluated_append, isEvaluatedEv, executingStep, hr]
                omega
              · simp [countCommitted_append, isCommittedEv, executingStep, hr, t4]
              · simp [executingStep, hr]
                omega
              · simp [rejCritiques_append, rejCritique, executingStep, hr, t6]
              · simp [countNonemptyRej_append, isNonemptyRejEv, executingStep, hr, t7]
              · simp [commitsGated_append, commitsGated, commitOk, executingStep, hr, t8]
              · simp [executingStep, hr]
          | false =>
              by_cases hgt : rs.agent.retry_count + 1 > rs.agent.max_retries
              · refine ⟨?_, ?_, ?_, ?_, ?_, ?_, ?_, ?_, ?_⟩
                · simp [countPlanned_append, isPlannedEv, executingStep, hr, hgt, hs, t1]
                · simp [countDrafted_append, isDraftedEv, executingStep, hr, hgt, hs, t2]
                · simp [countEvaluated_append, isEvaluatedEv, executingStep, hr, hgt, hs]
                  omega
                · simp [countCommitted_append, isCommittedEv, executingStep, hr, hgt, hs, t4]
                · simp [executingStep, hr, hgt, hs]
                  omega
                · simp [rejCritiques_append, rejCritique, executingStep, hr, hgt, hs, t6]
                · simp [countNonemptyRej_append, isNonemptyRejEv, executingStep, hr, hgt, hs, t7]
                · simp [commitsGated_append, commitsGated, commitOk, executingStep, hr, hgt, hs, t8]
                · simp [executingStep, hr, hgt, hs]
              · refine ⟨?_, ?_, ?_, ?_, ?_, ?_, ?_, ?_, ?_⟩
                · simp [countPlanned_append, isPlannedEv, executingStep, hr, hgt, hs, t1]
                · simp [countDrafted_append, isDraftedEv, executingStep, hr, hgt, hs, t2]
                · simp [countEvaluated_append, isEvaluatedEv, executingStep, hr, hgt, hs]
                  omega
                · simp [countCommitted_append, isCommittedEv, executingStep, hr, hgt, hs, t4]
                · simp [executingStep, hr, hgt, hs]
                  omega
                · simp [rejCritiques_append, rejCritique, executingStep, hr, hgt, hs, t6]
                · simp [countNonemptyRej_append, isNonemptyRejEv, executingStep, hr, hgt, hs, t7]
                · simp [commitsGated_append, commitsGated, commitOk, executingStep, hr, hgt, hs, t8]
                · simp [executingStep, hr, hgt, hs]
  | evaluating =>
      simp only [stepRun, hs, Except.ok.injEq] at hstep
      subst hstep
      simp [hs] at t1 t3 t4 t5
      rcases run_evaluator_cases rs.agent with heq | ⟨c, heq, hne⟩
      · rw [heq]
        have hcard : rs.agent.draft_card.isSome :=
          run_evaluator_approve_card rs.agent (by rw [heq])
        refine ⟨?_, ?_, ?_, ?_, ?_, ?_, ?_, ?_, ?_⟩
        · simp [countPlanned_append, isPlannedEv, evaluatingStep, t1]
        · simp [countDrafted_append, isDraftedEv, evaluatingStep, t2]
        · simp [countEvaluated_append, isEvaluatedEv, evaluatingStep]
          omega
        · simp [countCommitted_append, isCommittedEv, evaluatingStep, t4]
        · simp [evaluatingStep]
          omega
        · simp [rejCritiques_append, rejCritique, evaluatingStep, t6]
        · simp [countNonemptyRej_append, isNonemptyRejEv, evaluatingStep, t7]
        · simp [commitsGated_append, commitsGated, commitOk, evaluatingStep, t8]
        · intro _
          constructor
          · rw [gateAfter_append]
            simp [gateAfter, gateUpd, commitsGated]
          · simpa [evaluatingStep] using hcard
      · rw [heq]
        by_cases hgt : rs.agent.retry_count + 1 > rs.agent.max_retries
        · refine ⟨?_, ?_, ?_, ?_, ?_, ?_, ?_, ?_, ?_⟩
          · simp [countPlanned_append, isPlannedEv, evaluatingStep, hgt, t1]
          · simp [countDrafted_append, isDraftedEv, evaluatingStep, hgt, t2]
          · simp [countEvaluated_append, isEvaluatedEv, evaluatingStep, hgt]
            omega
          · simp [countCommitted_append, isCommittedEv, evaluatingStep, hgt, t4]
          · simp [evaluatingStep, hgt]
            omega
          · simp [rejCritiques_append, rejCritique, evaluatingStep, hgt, t6]
          · simp [countNonemptyRej_append, isNonemptyRejEv, evaluatingStep, hgt, hne, t7]
          · simp [commitsGated_append, commitsGated, commitOk, evaluatingStep, hgt, t8]
          · simp [evaluatingStep, hgt]
        · refine ⟨?_, ?_, ?_, ?_, ?_, ?_, ?_, ?_, ?_⟩
          · simp [countPlanned_append, isPlannedEv, evaluatingStep, hgt, t1]
          · simp [countDrafted_append, isDraftedEv, evaluatingStep, hgt, t2]
          · simp [countEvaluated_append, isEvaluatedEv, evaluatingStep, hgt]
            omega
          · simp [countCommitted_append, isCommittedEv, evaluatingStep, hgt, t4]
          · simp [evaluatingStep, hgt]
            omega
          · simp [rejCritiques_append, rejCritique, evaluatingStep, hgt, t6]
          · simp [countNonemptyRej_append, isNonemptyRejEv, evaluatingStep, hgt, hne, t7]
          · simp [commitsGated_append, commitsGated, commitOk, evaluatingStep, hgt, t8]
          · simp [evaluatingStep, hgt]
  | committing =>
      simp only [stepRun, hs, Except.ok.injEq] at hstep
      subst hstep
      simp [hs] at t1 t3 t4 t5 t9
      refine ⟨?_, ?_, ?_, ?_, ?_, ?_, ?_, ?_, ?_⟩
      · simp [countPlanned_append, isPlannedEv, t1]
      · simp [countDrafted_append, isDraftedEv, t2]
      · simp [countEvaluated_append, isEvaluatedEv]
        omega
      · simp [countCommitted_append, isCommittedEv, t4]
      · simpa using t5
      · simp [rejCritiques_append, rejCritique, t6]
      · simp [countNonemptyRej_append, isNonemptyRejEv, t7]
      · simp [commitsGated_append, commitsGated, commitOk, t8, t9.1, t9.2]
      · simp
  | done =>
      simp only [stepRun, hs, Except.ok.injEq] at hstep
      subst hstep
      exact ⟨t1, t2, t3, t4, t5, t6, t7, t8, t9⟩
  | failed =>
      simp only [stepRun, hs, Except.ok.injEq] at hstep
      subst hstep
      exact ⟨t1, t2, t3, t4, t5, t6, t7, t8, t9⟩

/-- Master lemma: with fuel `3 * maxR + 5` (or more) the loop returns
normally in a terminal state satisfying both invariants. -/
theorem run_workflow_spec (co : Collaborators) (cfg : TrelloConfig) (q : String)
    (maxR fuel : Nat) (hf : 3 * maxR + 5 ≤ fuel) :
    ∃ rs', run_workflow co cfg q maxR fuel = .ok rs' ∧ Terminal rs' ∧ WfInv rs' ∧
      TraceInv rs' ∧ rs'.agent.max_retries = maxR := by
  have hinv0 : WfInv
      { agent := initAgent q maxR, current_plan := none, draftIdx := 0, events := [] } := by
    refine ⟨⟨?_, ?_⟩, ?_⟩ <;> simp [initAgent]
  have htr0 : TraceInv
      { agent := initAgent q maxR, current_plan := none, draftIdx := 0, events := [] } := by
    refine ⟨?_, ?_, ?_, ?_, ?_, ?_, ?_, ?_, ?_⟩ <;>
      simp [initAgent, countPlanned, countDrafted, countEvaluated, countCommitted,
        countNonemptyRej, rejCritiques, commitsGated]
  have hm0 : measureOf
      { agent := initAgent q maxR, current_plan := none, draftIdx := 0, events := [] } < fuel := by
    simp [measureOf, agentMeasure, initAgent, stepWeight]
    omega
  obtain ⟨rs', hrun, hterm, hinv', hmax⟩ := runLoop_total co cfg fuel _ hinv0 hm0
  refine ⟨rs', hrun, hterm, hinv', ?_, by simpa [initAgent] using hmax⟩
  exact runLoop_preserves co cfg TraceInv
    (fun a b ha hb => stepRun_trace co cfg a b ha hb) fuel _ rs' htr0 hrun

/-- `run_evaluator` only depends on the draft card. -/
theorem run_evaluator_card (s : AgentState) :
    run_evaluator s = evalCard s.draft_card := by
  cases h : s.draft_card <;> simp [run_evaluator, evalCard, h]

theorem stepRun_reject (co : Collaborators) (cfg : TrelloConfig)
    (hsucc : ∀ n, (co.drafts n).success = true)
    (hrej : ∀ n, (evalCard (co.drafts n).output_data).decision = .reject)
    (rs rs' : RunState) (hp : RejectInv rs)
    (hstep : stepRun co cfg rs = .ok rs') : RejectInv rs' := by
  obtain ⟨p1, p2, p3, p4⟩ := hp
  cases hs : rs.agent.current_step with
  | planning =>
      simp only [stepRun, hs, Except.ok.injEq] at hstep
      subst hstep
      exact ⟨by simp, by simp, by simp, by simp⟩
  | executing =>
      cases hcp : rs.current_plan with
      | none => simp [stepRun, hs, hcp] at hstep
      | some pl =>
          simp only [stepRun, hs, hcp, Except.ok.injEq] at hstep
          subst hstep
          refine ⟨?_, ?_, ?_, ?_⟩ <;>
            simp [executingStep, hsucc rs.draftIdx, run_evaluator_card]
          exact hrej rs.draftIdx
  | evaluating =>
      simp only [stepRun, hs, Except.ok.injEq] at hstep
      subst hstep
      have hd : (run_evaluator rs.agent).decision = .reject := p4 hs
      cases hc : (run_evaluator rs.agent).critique with
      | none =>
          by_cases hgt : rs.agent.retry_count + 1 > rs.agent.max_retries <;>
            refine ⟨?_, ?_, ?_, ?_⟩ <;> simp [evaluatingStep, hd, hc, hgt]
      | some c =>
          by_cases hgt : rs.agent.retry_count + 1 > rs.agent.max_retries <;>
            refine ⟨?_, ?_, ?_, ?_⟩ <;> simp [evaluatingStep, hd, hc, hgt]
  | committing => exact absurd hs p1
  | done => exact absurd hs p2
  | failed =>
      simp only [stepRun, hs, Except.ok.injEq] at hstep
      subst hstep
      exact ⟨p1, p2, p3, p4⟩

/-- A non-empty string has `isEmpty = false`. -/
theorem isEmpty_false_of_ne (s : String) (h : s ≠ "") : s.isEmpty = false := by
  rw [Bool.eq_false_iff]
  intro hcon
  exact h ((String.isEmpty_iff _).mp hcon)

/-- Claim C3, counterexample: a Draft whose `existingId` is present but
equal to the empty string (length 0 < 10) is approved by `run_evaluator`,
although the claim requires a rejection whenever `existingId` is present
with length < 10. -/
theorem claim3_counterexample :
    cexState.draft_card = some cexCard ∧ cexCard.id = some "" ∧
    ("" : String).length < 10 ∧
    run_evaluator cexState = { decision := .approve, critique := none } := by
  refine ⟨rfl, rfl, by decide, by decide⟩

/-- Claim C3 (amended): `run_evaluator` applies its rules in order with
the first failing rule winning — absent Draft rejects with the fixed
critique; a present, non-empty `existingId` that is shorter than 10
characters or contains a space rejects with a critique naming the value;
otherwise (including an absent or empty-string `existingId`) it
approves. -/
theorem claim3_evaluator_rules (s : AgentState) :
    (s.draft_card = none →
      run_evaluator s = { decision := .reject, critique := some "No card was generated." }) ∧
    (∀ card idStr, s.draft_card = some card → card.id = some idStr → idStr ≠ "" →
      (idStr.length < 10 ∨ idStr.contains ' ' = true) →
      run_evaluator s = { decision := .reject
                          critique := some ("The ID '" ++ idStr ++
                            "' is invalid. It looks like a name or title. The ID must be the alphanumeric hash found by the Search tool.") }) ∧
    (∀ card, s.draft_card = some card →
      (card.id = none ∨ card.id = some "" ∨
        ∃ idStr, card.id = some idStr ∧ 10 ≤ idStr.length ∧ idStr.contains ' ' = false) →
      run_evaluator s = { decision := .approve, critique := none }) := by
  refine ⟨?_, ?_, ?_⟩
  · intro h
    simp [run_evaluator, h]
  · intro card idStr hd hid hne hbad
    have hne' : idStr.isEmpty = false := isEmpty_false_of_ne idStr hne
    have hbad' : ((decide (idStr.length < 10)) || idStr.contains ' ') = true := by
      rcases hbad with hb | hb <;> simp [hb]
    simp [run_evaluator, hd, hid, optStrTruthy, hne', hbad']
  · intro card hd hcase
    rcases hcase with h | h | ⟨idStr, hid, hlen, hsp⟩
    · simp [run_evaluator, hd, h, optStrTruthy]
    · have : optStrTruthy (some "") = false := by decide
      simp [run_evaluator, hd, h, this]
    · by_cases hemp : idStr.isEmpty = true
      · simp [run_evaluator, hd, hid, optStrTruthy, hemp]
      · have hbadf : ((decide (idStr.length < 10)) || idStr.contains ' ') = false := by
          simp [hsp, decide_eq_false_iff_not]
          omega
        simp [run_evaluator, hd, hid, optStrTruthy,
          Bool.not_eq_true idStr.isEmpty ▸ hemp, hbadf]

/-- Witness for claim C3: the three rules evaluated at concrete states. -/
theorem claim3_witness :
    run_evaluator sNoDraft = { decision := .reject, critique := some "No card was generated." } ∧
    run_evaluator sBadId = { decision := .reject
                             critique := some ("The ID '" ++ "Shelley K" ++
                               "' is invalid. It looks like a name or title. The ID must be the alphanumeric hash found by the Search tool.") } ∧
    run_evaluator sGoodId = { decision := .approve, critique := none } :=
  ⟨(claim3_evaluator_rules sNoDraft).1 rfl,
   (claim3_evaluator_rules sBadId).2.1 _ "Shelley K" rfl rfl (by decide) (Or.inl (by decide)),
   (claim3_evaluator_rules sGoodId).2.2 _ rfl (Or.inr (Or.inr ⟨"abc1234567", rfl, by decide,
     by rw [Bool.eq_false_iff, ne_eq, String.contains_iff]; decide⟩))⟩

/-- Claim C9: a Draft without an `existingId` is approved whatever its
title, description and category are. -/
theorem claim9_no_id_always_approved (s : AgentState) (title desc : String) (tg : Tag)
    (h : s.draft_card = some { id := none, title := title, description := desc, tag := tg }) :
    run_evaluator s = { decision := .approve, critique := none } := by
  simp [run_evaluator, h, optStrTruthy]

/-- Witness for claim C9: a Draft with empty title and a one-character
description is approved. -/
theorem claim9_witness : run_evaluator sShort = { decision := .approve, critique := none } :=
  claim9_no_id_always_approved sShort "" "x" .docs rfl

/-- Claim C8, counterexample: a rejection with no critique leaves the
scratchpad unchanged but DOES increment `retry_count` (the claim says
`retryCount` is unchanged). -/
theorem claim8_counterexample :
    (evaluatingStep sEval { decision := .reject, critique := none }).scratchpad =
      sEval.scratchpad ∧
    sEval.retry_count = 0 ∧
    (evaluatingStep sEval { decision := .reject, critique := none }).retry_count = 1 := by
  refine ⟨by decide, rfl, by decide⟩

/-- Claim C8 (amended): a rejection with no critique leaves the scratchpad
unchanged but still consumes a retry, incrementing `retry_count` by one. -/
theorem claim8_no_critique_rejection (s : AgentState) (e : Evaluation)
    (hd : e.decision = .reject) (hc : e.critique = none) :
    (evaluatingStep s e).scratchpad = s.scratchpad ∧
    (evaluatingStep s e).retry_count = s.retry_count + 1 := by
  by_cases hgt : s.retry_count + 1 > s.max_retries <;>
    simp [evaluatingStep, hd, hc, hgt]

/-- Witness for claim C8. -/
theorem claim8_witness :
    (evaluatingStep sEval { decision := .reject, critique := none }).scratchpad =
      sEval.scratchpad ∧
    (evaluatingStep sEval { decision := .reject, critique := none }).retry_count =
      sEval.retry_count + 1 :=
  claim8_no_critique_rejection sEval { decision := .reject, critique := none } rfl rfl

/-- Claim C6, counterexample: a Draft whose `existingId` is present but is
the empty string is approved by the Evaluator, yet the Committer issues a
CREATE (POST), not the UPDATE the claim requires for a present
`existingId`. -/
theorem claim6_counterexample :
    run_evaluator cexState = { decision := .approve, critique := none } ∧
    cexState.draft_card = some cexCard ∧ cexCard.id = some "" ∧
    (run_committer cfg0 cexState resp0).1 = some cexCreateReq ∧
    cexCreateReq.method = .post ∧ cexCreateReq.method ≠ .put := by
  refine ⟨by decide, rfl, rfl, by decide, rfl, by decide⟩

/-- Claim C6 (amended): the Committer branches on the approved Draft's
`existingId`: present and non-empty → an UPDATE (PUT) to that record with
payload name [category] title and the description; absent (or the
empty string, which Python treats as falsy) → a CREATE (POST) against the
configured default collection with the same name format, the description
and position `top`. -/
theorem claim6_commit_branch (cfg : TrelloConfig) (s : AgentState) (card : TrelloCard)
    (resp : HttpResponse) (h : s.draft_card = some card) :
    (∀ idStr, card.id = some idStr → idStr ≠ "" →
      (run_committer cfg s resp).1 = some
        { method := .put
          url := "https://api.trello.com/1/cards/" ++ idStr
          params := [("key", cfg.key), ("token", cfg.token),
                     ("name", some ("[" ++ tagStr card.tag ++ "] " ++ card.title)),
                     ("desc", some card.description)] }) ∧
    ((card.id = none ∨ card.id = some "") →
      (run_committer cfg s resp).1 = some
        { method := .post
          url := "https://api.trello.com/1/cards"
          params := [("key", cfg.key), ("token", cfg.token), ("idList", cfg.listId),
                     ("name", some ("[" ++ tagStr card.tag ++ "] " ++ card.title)),
                     ("desc", some card.description), ("pos", some "top")] }) := by
  have hemp : optStrTruthy (some "") = false := by decide
  constructor
  · intro idStr hid hne
    have hne' : idStr.isEmpty = false := isEmpty_false_of_ne idStr hne
    by_cases hst : resp.status = 200 <;>
      simp [run_committer, h, hid, optStrTruthy, hne', hst]
  · intro hcase
    rcases hcase with hid | hid
    · by_cases hst : resp.status = 200 <;>
        simp [run_committer, h, hid, optStrTruthy, hst]
    · by_cases hst : resp.status = 200 <;>
        simp [run_committer, h, hid, hemp, hst]

/-- Witness for claim C6: an UPDATE for a present non-empty id and a
CREATE for an absent id, at concrete inputs. -/
theorem claim6_witness :
    (run_committer cfg0 sUpd resp0).1 = some
      { method := .put
        url := "https://api.trello.com/1/cards/" ++ "abc1234567"
        params := [("key", cfg0.key), ("token", cfg0.token),
                   ("name", some ("[" ++ tagStr updCard.tag ++ "] " ++ updCard.title)),
                   ("desc", some updCard.description)] } ∧
    (run_committer cfg0 sCre resp0).1 = some
      { method := .post
        url := "https://api.trello.com/1/cards"
        params := [("key", cfg0.key), ("token", cfg0.token), ("idList", cfg0.listId),
                   ("name", some ("[" ++ tagStr creCard.tag ++ "] " ++ creCard.title)),
                   ("desc", some creCard.description), ("pos", some "top")] } :=
  ⟨(claim6_commit_branch cfg0 sUpd updCard resp0 rfl).1 "abc1234567" rfl (by decide),
   (claim6_commit_branch cfg0 sCre creCard resp0 rfl).2 (Or.inl rfl)⟩

/-- Claim C7, counterexample: on a 201 response — a success status per
the spec's 2xx contract — the Committer's message is the API-error text,
not the success message; the code tests `status_code == 200` exactly. -/
theorem claim7_counterexample :
    isSuccessStatus 201 = true ∧
    sCre.draft_card.isSome = true ∧
    (run_committer cfg0 sCre resp201).2 = "API ERROR: body" ∧
    (run_committer cfg0 sCre resp201).2 ≠
      "SUCCESS: " ++ "Created" ++ " card " ++ pyShow resp201.shortUrl := by
  refine ⟨by decide, rfl, by decide, by decide⟩

/-- Claim C7 (amended): whenever the Committer returns, the run moves to
`done` and `finalResult` is the Committer's message; the message is the
success text embedding the short reference exactly when the status is 200
(any other status, 2xx or not, yields the API-error text with the raw
body), and a committed API error is not distinguished from success at the
state-machine level. -/
theorem claim7_commit_terminal (co : Collaborators) (cfg : TrelloConfig) (rs : RunState)
    (hs : rs.agent.current_step = .committing) :
    ∃ rs', stepRun co cfg rs = .ok rs' ∧
      rs'.agent.current_step = .done ∧
      rs'.agent.final_result = some (run_committer cfg rs.agent co.commit).2 ∧
      (co.commit.status = 200 → ∀ card, rs.agent.draft_card = some card →
        (run_committer cfg rs.agent co.commit).2 =
          "SUCCESS: " ++ (if optStrTruthy card.id then "Updated" else "Created") ++
            " card " ++ pyShow co.commit.shortUrl) ∧
      (co.commit.status ≠ 200 → ∀ card, rs.agent.draft_card = some card →
        (run_committer cfg rs.agent co.commit).2 = "API ERROR: " ++ co.commit.text) := by
  refine ⟨{ rs with
              agent := { rs.agent with
                           final_result := some (run_committer cfg rs.agent co.commit).snd
                           current_step := .done }
              events := rs.events ++
                [.committed rs.agent.draft_card (run_committer cfg rs.agent co.commit).snd] },
    by simp [stepRun, hs], by simp, by simp, ?_, ?_⟩
  · intro h200 card hcard
    by_cases htr : optStrTruthy card.id = true <;>
      simp [run_committer, hcard, h200, htr]
  · intro hst card hcard
    by_cases htr : optStrTruthy card.id = true <;>
      simp [run_committer, hcard, hst, htr]

/-- Witness for claim C7: the committing step applied to `sCre` under a
200 response. -/
theorem claim7_witness :
    ∃ rs', stepRun co0 cfg0
        { agent := sCre, current_plan := some co0.plan, draftIdx := 1, events := [] } = .ok rs' ∧
      rs'.agent.current_step = .done ∧
      rs'.agent.final_result = some (run_committer cfg0 sCre co0.commit).2 ∧
      (run_committer cfg0 sCre co0.commit).2 =
        "SUCCESS: " ++ (if optStrTruthy creCard.id then "Updated" else "Created") ++
          " card " ++ pyShow co0.commit.shortUrl := by
  obtain ⟨rs', h1, h2, h3, h4, h5⟩ := claim7_commit_terminal co0 cfg0
    { agent := sCre, current_plan := some co0.plan, draftIdx := 1, events := [] } rfl
  exact ⟨rs', h1, h2, h3, h4 rfl creCard rfl⟩

/-- In a terminal state the number of drafting attempts is at most
`max_retries + 1`. -/
theorem terminal_draft_bound (rs : RunState) (hterm : Terminal rs) (hinv : WfInv rs)
    (htr : TraceInv rs) : rs.draftIdx ≤ rs.agent.max_retries + 1 := by
  obtain ⟨⟨h1, h2⟩, -⟩ := hinv
  have t5 := htr.2.2.2.2.1
  cases hterm with
  | inl hdone =>
      have hr := h2 (by simp [hdone])
      rw [hdone] at t5
      simp at t5
      omega
  | inr hfail =>
      have hr := h1 hfail
      rw [hfail] at t5
      simp at t5
      omega

/-- In a terminal state, `failed` holds exactly when the retry count has
exceeded the budget. -/
theorem terminal_failed_iff (rs : RunState) (hinv : WfInv rs) :
    (rs.agent.current_step = .failed ↔ rs.agent.retry_count > rs.agent.max_retries) := by
  obtain ⟨⟨h1, h2⟩, -⟩ := hinv
  constructor
  · intro h
    have := h1 h
    omega
  · intro h
    by_contra hne
    have := h2 hne
    omega

/-- Claim C1: in every run the number of drafting attempts before the run
terminates is at most `maxRetries + 1`; drafting failures and evaluation
rejections increment the same shared `retry_count`; and the run is in
`failed` exactly when `retry_count` exceeds `max_retries`. -/
theorem claim1_retry_budget (co : Collaborators) (cfg : TrelloConfig) (q : String)
    (maxR : Nat) :
    (∃ rs', run_workflow co cfg q maxR (3 * maxR + 5) = .ok rs' ∧
      countDrafted rs'.events = rs'.draftIdx ∧
      rs'.draftIdx ≤ maxR + 1 ∧
      (rs'.agent.current_step = .failed ↔ rs'.agent.retry_count > maxR)) ∧
    (∀ s r, s.current_step = .executing → r.success = false →
      (executingStep s r).retry_count = s.retry_count + 1 ∧
      ((executingStep s r).current_step = .failed ↔ s.retry_count + 1 > s.max_retries)) ∧
    (∀ s e, e.decision = .reject →
      (evaluatingStep s e).retry_count = s.retry_count + 1 ∧
      ((evaluatingStep s e).current_step = .failed ↔ s.retry_count + 1 > s.max_retries)) := by
  refine ⟨?_, ?_, ?_⟩
  · obtain ⟨rs', hrun, hterm, hinv, htr, hmax⟩ :=
      run_workflow_spec co cfg q maxR (3 * maxR + 5) le_rfl
    have hb := terminal_draft_bound rs' hterm hinv htr
    have hiff := terminal_failed_iff rs' hinv
    rw [hmax] at hb hiff
    exact ⟨rs', hrun, htr.2.1, hb, hiff⟩
  · intro s r hs hr
    by_cases hgt : s.retry_count + 1 > s.max_retries <;>
      constructor <;> simp [executingStep, hr, hgt, hs]
  · intro s e hd
    cases hc : e.critique with
    | none =>
        by_cases hgt : s.retry_count + 1 > s.max_retries <;>
          constructor <;> simp [evaluatingStep, hd, hc, hgt]
    | some c =>
        by_cases hgt : s.retry_count + 1 > s.max_retries <;>
          constructor <;> simp [evaluatingStep, hd, hc, hgt]

/-- Witness for claim C1 at the source's default `max_retries = 3` (at
most 4 attempts). -/
theorem claim1_witness :
    (∃ rs', run_workflow co0 cfg0 "q" 3 (3 * 3 + 5) = .ok rs' ∧
      countDrafted rs'.events = rs'.draftIdx ∧
      rs'.draftIdx ≤ 3 + 1 ∧
      (rs'.agent.current_step = .failed ↔ rs'.agent.retry_count > 3)) ∧
    (executingStep sExec
        { output_data := none, success := false, error_message := some "e" }).retry_count =
      sExec.retry_count + 1 ∧
    (evaluatingStep sExec { decision := .reject, critique := none }).retry_count =
      sExec.retry_count + 1 := by
  obtain ⟨h1, h2, h3⟩ := claim1_retry_budget co0 cfg0 "q" 3
  exact ⟨h1, (h2 sExec _ rfl rfl).1, (h3 sExec _ rfl).1⟩

/-- Claim C2: the Committer is invoked at most once per run, and every
commit event happens while the most recent Evaluation was an approval and
on a present Draft. -/
theorem claim2_single_commit (co : Collaborators) (cfg : TrelloConfig) (q : String)
    (maxR : Nat) :
    ∃ rs', run_workflow co cfg q maxR (3 * maxR + 5) = .ok rs' ∧
      countCommitted rs'.events ≤ 1 ∧
      commitsGated false rs'.events = true := by
  obtain ⟨rs', hrun, hterm, hinv, htr, hmax⟩ :=
    run_workflow_spec co cfg q maxR (3 * maxR + 5) le_rfl
  refine ⟨rs', hrun, ?_, htr.2.2.2.2.2.2.2.1⟩
  have t4 := htr.2.2.2.1
  by_cases h : rs'.agent.current_step = Step.done <;> simp [h] at t4 <;> omega

/-- Claim C4: if the drafter always succeeds and the evaluator rejects
every draft it produces, the run terminates in `failed` with the
human-handoff sentinel as `finalResult`. -/
theorem claim4_human_handoff (co : Collaborators) (cfg : TrelloConfig) (q : String)
    (maxR : Nat)
    (hsucc : ∀ n, (co.drafts n).success = true)
    (hrej : ∀ n, (evalCard (co.drafts n).output_data).decision = .reject) :
    ∃ rs', run_workflow co cfg q maxR (3 * maxR + 5) = .ok rs' ∧
      rs'.agent.current_step = .failed ∧
      rs'.agent.final_result = some "Human Handoff Required" := by
  obtain ⟨rs', hrun, hterm, hinv, htr, hmax⟩ :=
    run_workflow_spec co cfg q maxR (3 * maxR + 5) le_rfl
  have h0 : RejectInv
      { agent := initAgent q maxR, current_plan := none, draftIdx := 0, events := [] } := by
    refine ⟨?_, ?_, ?_, ?_⟩ <;> simp [initAgent]
  have hrun' := hrun
  simp only [run_workflow] at hrun'
  have hri : RejectInv rs' :=
    runLoop_preserves co cfg RejectInv
      (fun a b ha hb => stepRun_reject co cfg hsucc hrej a b ha hb) _ _ rs' h0 hrun'
  obtain ⟨p1, p2, p3, p4⟩ := hri
  have hfail : rs'.agent.current_step = .failed := by
    rcases hterm with h | h
    · exact absurd h p2
    · exact h
  exact ⟨rs', hrun, hfail, p3 hfail⟩

/-- Witness for claim C4: with `coRej` the run fails with the sentinel. -/
theorem claim4_witness :
    ∃ rs', run_workflow coRej cfg0 "wq" 3 (3 * 3 + 5) = .ok rs' ∧
      rs'.agent.current_step = .failed ∧
      rs'.agent.final_result = some "Human Handoff Required" :=
  claim4_human_handoff coRej cfg0 "wq" 3 (fun _ => rfl) (fun _ => rfl)

/-- Claim C5: the scratchpad never shrinks across any loop transition; at
the end of a run it is exactly the ordered list of rejection critiques,
and its length equals the number of rejections carrying a non-empty
critique. -/
theorem claim5_scratchpad (co : Collaborators) (cfg : TrelloConfig) :
    (∀ rs rs', stepRun co cfg rs = .ok rs' →
      ∃ t, rs'.agent.scratchpad = rs.agent.scratchpad ++ t) ∧
    (∀ q maxR, ∃ rs', run_workflow co cfg q maxR (3 * maxR + 5) = .ok rs' ∧
      rs'.agent.scratchpad = rejCritiques rs'.events ∧
      rs'.agent.scratchpad.length = countNonemptyRej rs'.events) := by
  constructor
  · intro rs rs' hstep
    cases hs : rs.agent.current_step with
    | planning =>
        simp only [stepRun, hs, Except.ok.injEq] at hstep
        subst hstep
        exact ⟨[], by simp⟩
    | executing =>
        cases hcp : rs.current_plan with
        | none => simp [stepRun, hs, hcp] at hstep
        | some p =>
            simp only [stepRun, hs, hcp, Except.ok.injEq] at hstep
            subst hstep
            refine ⟨[], ?_⟩
            cases hr : (co.drafts rs.draftIdx).success with
            | true => simp [executingStep, hr]
            | false =>
                by_cases hgt : rs.agent.retry_count + 1 > rs.agent.max_retries <;>
                  simp [executingStep, hr, hgt]
    | evaluating =>
        simp only [stepRun, hs, Except.ok.injEq] at hstep
        subst hstep
        cases hd : (run_evaluator rs.agent).decision with
        | approve => exact ⟨[], by simp [evaluatingStep, hd]⟩
        | reject =>
            cases hc : (run_evaluator rs.agent).critique with
            | none =>
                refine ⟨[], ?_⟩
                by_cases hgt : rs.agent.retry_count + 1 > rs.agent.max_retries <;>
                  simp [evaluatingStep, hd, hc, hgt]
            | some c =>
                refine ⟨[c], ?_⟩
                by_cases hgt : rs.agent.retry_count + 1 > rs.agent.max_retries <;>
                  simp [evaluatingStep, hd, hc, hgt]
    | committing =>
        simp only [stepRun, hs, Except.ok.injEq] at hstep
        subst hstep
        exact ⟨[], by simp⟩
    | done =>
        simp only [stepRun, hs, Except.ok.injEq] at hstep
        subst hstep
        exact ⟨[], by simp⟩
    | failed =>
        simp only [stepRun, hs, Except.ok.injEq] at hstep
        subst hstep
        exact ⟨[], by simp⟩
  · intro q maxR
    obtain ⟨rs', hrun, hterm, hinv, htr, hmax⟩ :=
      run_workflow_spec co cfg q maxR (3 * maxR + 5) le_rfl
    exact ⟨rs', hrun, htr.2.2.2.2.2.1, htr.2.2.2.2.2.2.1⟩

/-- Witness for claim C5: one concrete transition and one concrete run. -/
theorem claim5_witness :
    (∃ t, rsAfter0.agent.scratchpad = rsInit0.agent.scratchpad ++ t) ∧
    (∃ rs', run_workflow co0 cfg0 "q" 3 (3 * 3 + 5) = .ok rs' ∧
      rs'.agent.scratchpad = rejCritiques rs'.events ∧
      rs'.agent.scratchpad.length = countNonemptyRej rs'.events) :=
  ⟨(claim5_scratchpad co0 cfg0).1 rsInit0 rsAfter0 rfl,
   (claim5_scratchpad co0 cfg0).2 "q" 3⟩

/-- Claim C10: for every oracle behaviour the loop terminates — with fuel
`3 * maxRetries + 5` the `while` guard, not the fuel, ends the run — in
`done` or `failed`, having planned exactly once, drafted and evaluated at
most `maxRetries + 1` times each, and committed at most once. -/
theorem claim10_termination (co : Collaborators) (cfg : TrelloConfig) (q : String)
    (maxR fuel : Nat) (hf : 3 * maxR + 5 ≤ fuel) :
    ∃ rs', run_workflow co cfg q maxR fuel = .ok rs' ∧
      (rs'.agent.current_step = .done ∨ rs'.agent.current_step = .failed) ∧
      countPlanned rs'.events = 1 ∧
      countDrafted rs'.events ≤ maxR + 1 ∧
      countEvaluated rs'.events ≤ maxR + 1 ∧
      countCommitted rs'.events ≤ 1 := by
  obtain ⟨rs', hrun, hterm, hinv, htr, hmax⟩ := run_workflow_spec co cfg q maxR fuel hf
  have hb := terminal_draft_bound rs' hterm hinv htr
  rw [hmax] at hb
  refine ⟨rs', hrun, hterm, ?_, ?_, ?_, ?_⟩
  · have t1 := htr.1
    rcases hterm with h | h <;> simp [h] at t1 <;> exact t1
  · rw [htr.2.1]
    exact hb
  · have t3 := htr.2.2.1
    rcases hterm with h | h <;> simp [h] at t3 <;> omega
  · have t4 := htr.2.2.2.1
    by_cases h : rs'.agent.current_step = Step.done <;> simp [h] at t4 <;> omega

/-- Witness for claim C10 at the default budget and minimal fuel. -/
theorem claim10_witness :
    ∃ rs', run_workflow co0 cfg0 "q" 3 14 = .ok rs' ∧
      (rs'.agent.current_step = .done ∨ rs'.agent.current_step = .failed) ∧
      countPlanned rs'.events = 1 ∧
      countDrafted rs'.events ≤ 3 + 1 ∧
      countEvaluated rs'.events ≤ 3 + 1 ∧
      countCommitted rs'.events ≤ 1 :=
  claim10_termination co0 cfg0 "q" 3 14 (by decide)

end Workflow
